import Mathlib

/-!
Verification of the intelligent-prior-auth core against its specification.

The Python modules under `app/` are shallowly embedded in Lean:

* `app/data/db_models.py`: the `Patient` and `InsurancePlan` SQLAlchemy rows
  become structures; a database session is a value of `Db` holding the two
  tables, and `query(...).filter(...).first()` becomes `List.find?`.
* `app/modules/benefit_verification.py`: `CoverageResult`, `check_coverage`,
  `check_coverage_by_plan` are translated line by line; SQL `Float` columns
  are modelled as rationals, nullable columns as `Option`.
* `app/core/llm_openrouter.py` (`parse_json_response`): modelled over
  `List Char`, with Python's `str.split` / `in` / `strip` given faithful
  executable counterparts (`pySplit`, occurrence count, `pyStrip`); the
  external `json.loads` is an abstract parameter.
* `app/modules/clinical_qualification.py`: the mapping from the parsed JSON
  reply into the eligibility verdict, with `dict.get` defaults.
* `app/data/vector_index.py` (`VectorIndexManager.search`): the ChromaDB
  reply (ids/documents/metadatas/distances for at most `top_k` hits, ordered
  by ascending cosine distance) is the function's input; Python's banker
  rounding `round(x, 4)` is modelled on rationals by `pyRound4`.
* `app/modules/orchestrator.py`: phase dictionaries become structures whose
  fields are `Option`s (a missing key is `none`, matching `dict.get`);
  the fallible external capabilities (vector search, the LLM-backed
  eligibility check, PA-form generation) are `Except`-valued parameters in
  `OrchestratorEnv`, and each `try/except` phase wrapper catches them into a
  phase-local `status := "error"` dictionary exactly as the code does.
-/

/-! ## Data model (app/data/db_models.py) -/

/-- One diagnosis entry of a patient's JSON `diagnoses` column. -/
structure Diagnosis where
  name : String
  icd10 : String
deriving Repr, DecidableEq

/-- One entry of a patient's JSON `treatment_history` column. -/
structure Treatment where
  drug : String
  duration_months : Int
  outcome : String
deriving Repr, DecidableEq

/-- A row of the `patients` table (db_models.Patient), restricted to the
columns the verified modules read. -/
structure Patient where
  patient_id : String
  name : String
  age : Int
  gender : String
  insurance_plan : String
  member_id : String
  diagnoses : List Diagnosis
  labs : List (String × ℚ)
  treatment_history : List Treatment
  allergies : List String
deriving Repr, DecidableEq

/-- A row of the `insurance_plans` table (db_models.InsurancePlan): the
coverage record for one (plan, drug) pair.  Nullable columns are `Option`,
the `Float` copay is a rational. -/
structure InsurancePlan where
  plan : String
  drug : String
  covered : Bool
  pa_required : Bool
  criteria : Option String := none
  tier : Option Int := none
  estimated_copay : Option ℚ := none
  step_therapy_required : Bool := false
  quantity_limit : Option String := none
deriving Repr, DecidableEq

/-- A database session: the two tables the verified modules query. -/
structure Db where
  patients : List Patient
  plans : List InsurancePlan
deriving Repr, DecidableEq

/-- `db.query(Patient).filter(Patient.patient_id == patient_id).first()`. -/
def Db.findPatient (db : Db) (patient_id : String) : Option Patient :=
  db.patients.find? (fun p => p.patient_id == patient_id)

/-- `db.query(InsurancePlan).filter(InsurancePlan.plan == plan,
InsurancePlan.drug == drug).first()`. -/
def Db.findPlanRecord (db : Db) (plan drug : String) : Option InsurancePlan :=
  db.plans.find? (fun r => r.plan == plan && r.drug == drug)

/-! ## Benefit verification (app/modules/benefit_verification.py) -/

/-- `CoverageResult` of benefit_verification.py, with its constructor
defaults. -/
structure CoverageResult where
  covered : Bool
  pa_required : Bool
  criteria : Option String := none
  tier : Option Int := none
  estimated_copay : Option ℚ := none
  step_therapy_required : Bool := false
  quantity_limit : Option String := none
  reason : Option String := none
deriving Repr, DecidableEq

/-- `check_coverage(patient_id, drug, db)` (benefit_verification.py lines
52-114), translated branch for branch. -/
def check_coverage (patient_id drug : String) (db : Db) : CoverageResult :=
  match db.findPatient patient_id with
  | none =>
      { covered := false, pa_required := false,
        reason := some ("Patient not found: " ++ patient_id) }
  | some patient =>
      match db.findPlanRecord patient.insurance_plan drug with
      | none =>
          { covered := false, pa_required := false,
            reason := some ("Drug not in formulary for " ++ patient.insurance_plan) }
      | some plan_coverage =>
          if !plan_coverage.covered then
            { covered := false, pa_required := false,
              reason := some ("Drug not covered under " ++ patient.insurance_plan) }
          else
            { covered := true,
              pa_required := plan_coverage.pa_required,
              criteria := plan_coverage.criteria,
              tier := plan_coverage.tier,
              estimated_copay := plan_coverage.estimated_copay,
              step_therapy_required := plan_coverage.step_therapy_required,
              quantity_limit := plan_coverage.quantity_limit,
              reason := some (if plan_coverage.pa_required then "Coverage found"
                              else "Covered, no PA required") }

/-- `check_coverage_by_plan(plan_name, drug, db)` (benefit_verification.py
lines 117-163). -/
def check_coverage_by_plan (plan_name drug : String) (db : Db) : CoverageResult :=
  match db.findPlanRecord plan_name drug with
  | none =>
      { covered := false, pa_required := false,
        reason := some ("Drug not in formulary for " ++ plan_name) }
  | some plan_coverage =>
      if !plan_coverage.covered then
        { covered := false, pa_required := false,
          reason := some ("Drug not covered under " ++ plan_name) }
      else
        { covered := true,
          pa_required := plan_coverage.pa_required,
          criteria := plan_coverage.criteria,
          tier := plan_coverage.tier,
          estimated_copay := plan_coverage.estimated_copay,
          step_therapy_required := plan_coverage.step_therapy_required,
          quantity_limit := plan_coverage.quantity_limit,
          reason := some (if plan_coverage.pa_required then "Coverage found"
                          else "Covered, no PA required") }

/-! ### Concrete database used by the witnesses: the spec's P001 / P002
scenarios. -/

/-- Patient P001 on the "Aetna Gold" plan (spec section 8 scenario). -/
def patientP001 : Patient :=
  { patient_id := "P001", name := "Maria Lopez", age := 47, gender := "F",
    insurance_plan := "Aetna Gold", member_id := "AET-1001",
    diagnoses := [{ name := "Type 2 Diabetes", icd10 := "E11.9" }],
    labs := [(("BMI" : String), (32 : ℚ)), (("HbA1c" : String), (81/10 : ℚ))],
    treatment_history := [{ drug := "Metformin", duration_months := 6, outcome := "inadequate" }],
    allergies := [] }

/-- Patient P002 on the "BlueCross Silver" plan (spec section 8 scenario). -/
def patientP002 : Patient :=
  { patient_id := "P002", name := "John Smith", age := 58, gender := "M",
    insurance_plan := "BlueCross Silver", member_id := "BCS-2002",
    diagnoses := [{ name := "Type 2 Diabetes", icd10 := "E11.9" }],
    labs := [(("BMI" : String), (29 : ℚ))],
    treatment_history := [],
    allergies := [] }

/-- The stored Ozempic record of the "Aetna Gold" plan: covered, PA required,
with the spec's criteria text, tier 3 and a 25.0 copay. -/
def recordAetnaOzempic : InsurancePlan :=
  { plan := "Aetna Gold", drug := "Ozempic", covered := true, pa_required := true,
    criteria := some ("BMI > 30 AND HbA1c > 7.5"), tier := some 3,
    estimated_copay := some 25, step_therapy_required := false,
    quantity_limit := some ("4 pens / 28 days") }

/-- The stored Trulicity record of the "BlueCross Silver" plan: not covered. -/
def recordBlueCrossTrulicity : InsurancePlan :=
  { plan := "BlueCross Silver", drug := "Trulicity", covered := false,
    pa_required := false }

/-- The concrete witness database holding both scenarios. -/
def dbScenario : Db :=
  { patients := [patientP001, patientP002],
    plans := [recordAetnaOzempic, recordBlueCrossTrulicity] }

/-! ## JSON values and the eligibility verdict
(app/modules/clinical_qualification.py) -/

/-- A parsed JSON value, as `json.loads` yields it: the LLM reply is
untyped, so verdict fields built from it are `Jv`s. -/
inductive Jv where
  | null : Jv
  | bool (b : Bool) : Jv
  | num (q : ℚ) : Jv
  | str (s : String) : Jv
  | arr (elems : List Jv) : Jv
  | obj (fields : List (String × Jv)) : Jv

/-- Python `d.get(key, dflt)` on a parsed JSON object (a dict = association
list keyed leftmost-first). -/
def pyDictGet (d : List (String × Jv)) (key : String) (dflt : Jv) : Jv :=
  match d.find? (fun kv => kv.fst == key) with
  | some kv => kv.snd
  | none => dflt

/-- `EligibilityResult` of clinical_qualification.py: the verdict fields
extracted from the parsed LLM reply (plus the raw reply kept as
`reasoning_details`).  The `llm_metadata` bookkeeping is omitted. -/
structure EligibilityVerdict where
  meets_criteria : Jv
  confidence_score : Jv
  clinical_justification : Jv
  recommendation : Jv
  reasoning_details : List (String × Jv)

/-- The field-extraction step of `check_clinical_eligibility`
(clinical_qualification.py lines 134-152): the parsed JSON reply is mapped
into the verdict with `dict.get` defaults. -/
def check_clinical_eligibility_from_parsed (parsed : List (String × Jv)) :
    EligibilityVerdict :=
  { meets_criteria := pyDictGet parsed ("meets_criteria") (Jv.bool false),
    confidence_score := pyDictGet parsed ("confidence_score") (Jv.num 0),
    clinical_justification := pyDictGet parsed ("clinical_justification") (Jv.str ("")),
    recommendation := pyDictGet parsed ("recommendation") (Jv.str ("NEEDS_REVIEW")),
    reasoning_details := parsed }

/-! ## parse_json_response (app/core/llm_openrouter.py lines 157-181)

Modelled over `List Char`.  `pySplit` is Python's `str.split(sep)` for a
non-empty separator: it cuts at every leftmost non-overlapping occurrence of
`sep`, so a string with n occurrences yields n+1 parts; `x in s` is infix
occurrence; `str.strip()` drops leading and trailing whitespace. -/

/-- The backtick character (codepoint 96). -/
def backquote : Char := Char.ofNat 96

/-- The triple-backtick fence delimiter. -/
def fence : List Char := [backquote, backquote, backquote]

/-- The "json"-labelled opening fence. -/
def fenceJson : List Char := fence ++ ['j', 's', 'o', 'n']

/-- Python `s.split(sep)` for a (non-empty) separator: scan left to right,
cut at each occurrence of `sep`, never overlapping.  For `sep = []` Python
raises; here the whole string is returned as a single part (the branch is
never taken by `parse_json_response`). -/
def pySplit (sep : List Char) (s : List Char) : List (List Char) :=
  if hsep : sep = [] then [s]
  else
    match s with
    | [] => [[]]
    | c :: rest =>
      if sep <+: (c :: rest) then
        [] :: pySplit sep ((c :: rest).drop sep.length)
      else
        match pySplit sep rest with
        | [] => [[c]]
        | h :: t => (c :: h) :: t
termination_by s.length
decreasing_by
  · have hlen : sep.length ≠ 0 := fun h => hsep (List.eq_nil_of_length_eq_zero h)
    simp only [List.length_drop, List.length_cons]
    omega
  · simp

/-- Python `s.strip()`: drop leading and trailing whitespace. -/
def pyStrip (s : List Char) : List Char :=
  ((s.dropWhile Char.isWhitespace).reverse.dropWhile Char.isWhitespace).reverse

/-- The markdown-unwrap step of `parse_json_response`:
`content.split("```json")[1].split("```")[0]` when `"```json" in content`,
else `content.split("```")[1].split("```")[0]` when `"```" in content`,
else `content` unchanged. -/
def pyUnwrapFence (content : List Char) : List Char :=
  if fenceJson <:+: content then
    (pySplit fence ((pySplit fenceJson content).getD 1 [])).getD 0 []
  else if fence <:+: content then
    (pySplit fence ((pySplit fence content).getD 1 [])).getD 0 []
  else content

/-- The text prepended to the `ValueError` raised on a JSON parse failure. -/
def errInvalidJson : List Char := ("Invalid JSON in LLM response: ").data

/-- `OpenRouterLLMClient.parse_json_response(content)`: one fenced-code-block
unwrap, then strict JSON parsing of the stripped text; a parse failure is a
typed error carrying the (unwrapped) offending text.  `jsonLoads` is the
external `json.loads`, abstract here: `none` models `json.JSONDecodeError`. -/
def parse_json_response (jsonLoads : List Char → Option Jv) (content : List Char) :
    Except (List Char) Jv :=
  let c := pyUnwrapFence content
  match jsonLoads (pyStrip c) with
  | some j => Except.ok j
  | none => Except.error (errInvalidJson ++ c)

/-- `s` wrapped in a fenced code block labelled "json". -/
def wrapFencedJson (s : List Char) : List Char :=
  fenceJson ++ ('\n' :: (s ++ '\n' :: fence))

/-- Concrete strict-JSON stub for the C6 witness: accepts exactly the text
"\x7b\x7d" (an empty JSON object). -/
def jsonLoadsEmptyObj : List Char → Option Jv :=
  fun t => if t = ("\x7b\x7d").data then some (Jv.obj []) else none

/-! ## Vector search (app/data/vector_index.py lines 86-126) -/

/-- Python `round(x, d)` rounds to the nearest integer at the d-th decimal,
ties to even; this is the integer step at d = 0. -/
def roundHalfEven (q : ℚ) : ℤ :=
  if Int.fract q < 1/2 then ⌊q⌋
  else if 1/2 < Int.fract q then ⌊q⌋ + 1
  else if ⌊q⌋ % 2 = 0 then ⌊q⌋ else ⌊q⌋ + 1

/-- Python `round(x, 4)`. -/
def pyRound4 (q : ℚ) : ℚ := (roundHalfEven (q * 10000) : ℚ) / 10000

/-- One hit of the ChromaDB reply to
`collection.query(query_texts=[query], n_results=top_k)`: its id, document
text, metadata and cosine distance.  The index contract (ChromaDB) returns
at most `top_k` hits ordered by ascending distance; those two facts enter
the theorems as hypotheses. -/
structure QueryCandidate where
  id : String
  text : String
  metadata : List (String × String)
  distance : ℚ
deriving Repr, DecidableEq

/-- One entry of the list `VectorIndexManager.search` returns. -/
structure SearchMatch where
  id : String
  text : String
  metadata : List (String × String)
  similarity : ℚ
  distance : ℚ
deriving Repr, DecidableEq

namespace VectorIndexManager

/-- The match built from one candidate: similarity is `1 - distance`,
rounded to 4 decimal digits in the returned value (as is the distance). -/
def matchOf (c : QueryCandidate) : SearchMatch :=
  { id := c.id, text := c.text, metadata := c.metadata,
    similarity := pyRound4 (1 - c.distance), distance := pyRound4 c.distance }

/-- `VectorIndexManager.search(query, top_k, distance_threshold)`
(vector_index.py lines 86-126): the index reply `queryReply` (already capped
at `top_k` by the index) is filtered post-hoc, keeping each candidate whose
unrounded similarity `1 - distance` reaches the threshold. -/
def search (queryReply : List QueryCandidate) (distance_threshold : ℚ) :
    List SearchMatch :=
  queryReply.filterMap (fun c =>
    let similarity := 1 - c.distance
    if distance_threshold ≤ similarity then some (matchOf c) else none)

end VectorIndexManager

/-! ## Orchestrator (app/modules/orchestrator.py)

Each phase returns a Python dict; a dict is modelled as a structure of
`Option` fields, `none` standing for an absent key, so that `dict.get`
becomes `Option.getD` (Python truthiness of a possibly-missing bool is
`Option.getD false`). -/

/-- The phase-2 dict built by `_phase2_coverage_check`. -/
structure CoveragePhase where
  covered : Option Bool := none
  pa_required : Option Bool := none
  criteria : Option (Option String) := none
  status : Option String := none
  error : Option String := none
deriving Repr, DecidableEq

/-- The phase-3 dict built by `_phase3_policy_search`. -/
structure PolicySearchPhase where
  drug : Option String := none
  policies_found : Option Nat := none
  results : Option (List SearchMatch) := none
  status : Option String := none
  error : Option String := none
deriving Repr, DecidableEq

/-- The phase-4 dict built by `_phase4_eligibility_check`. -/
structure EligibilityPhase where
  meets_criteria : Option Bool := none
  confidence_score : Option ℚ := none
  clinical_justification : Option String := none
  recommendation : Option String := none
  status : Option String := none
  error : Option String := none
deriving Repr, DecidableEq

/-- The attributes of a successfully built `EligibilityResult` that the
orchestrator reads back (with the types clinical_qualification.py
declares). -/
structure EligibilityData where
  meets_criteria : Bool
  confidence_score : ℚ
  clinical_justification : String
  recommendation : String
deriving Repr, DecidableEq

/-- The form dict returned by `PriorAuthorizationGenerator.generate_form`,
restricted to the keys `_phase5_pa_generation` reads. -/
structure PAFormData where
  form_id : Option String := none
  clinical_narrative : Option String := none
deriving Repr, DecidableEq

/-- The phase-5 dict built by `_phase5_pa_generation`. -/
structure PAFormPhase where
  form_id : Option (Option String) := none
  status : Option String := none
  has_clinical_narrative : Option Bool := none
  narrative_preview : Option String := none
  full_form : Option PAFormData := none
  api_status : Option String := none
  error : Option String := none
deriving Repr, DecidableEq

/-- The `patient` sub-dict of a successful workflow result. -/
structure PatientSummary where
  id : String
  name : String
  age : Int
  insurance_plan : String
deriving Repr, DecidableEq

/-- The `phases` sub-dict of a workflow result: all four keys are always
present, a skipped phase holding an explicit null (`none`). -/
structure PhasesDict where
  phase2_coverage : Option CoveragePhase := none
  phase3_policy_search : Option PolicySearchPhase := none
  phase4_eligibility : Option EligibilityPhase := none
  phase5_pa_form : Option PAFormPhase := none
deriving Repr, DecidableEq

/-- The workflow result dict `process_prescription` returns. -/
structure WorkflowResult where
  workflow_id : String
  status : String
  result : Option String := none
  timestamp : Option String := none
  patient : Option PatientSummary := none
  phases : PhasesDict := {}
  recommendation : Option String := none
  reason : Option String := none
  summary : Option String := none
  error : Option String := none
deriving Repr, DecidableEq

/-- The orchestrator's fallible external capabilities: the vector index
(`self.vector_index.search(drug, top_k=3)`), the LLM-backed
`check_clinical_eligibility`, and `PriorAuthorizationGenerator.generate_form`.
An `Except.error` models the exception the corresponding `try/except`
catches; `now` is the timestamp string. -/
structure OrchestratorEnv where
  now : String
  vector_search : String → Except String (List SearchMatch)
  run_eligibility : Patient → String → String → Except String EligibilityData
  generate_form : String → String → EligibilityPhase → String → String →
    Except String PAFormData

/-- `_phase2_coverage_check` (orchestrator.py lines 160-180): a pure lookup
here, so the `except` branch is dead and the dict always carries
`status = "success"`.  `vars(result).get` finds every attribute, so the
fields pass through unchanged (`criteria` may be null). -/
def phase2_coverage_check (db : Db) (patient : Patient) (drug : String) :
    CoveragePhase :=
  let r := check_coverage patient.patient_id drug db
  { covered := some r.covered, pa_required := some r.pa_required,
    criteria := some r.criteria, status := some ("success") }

/-- `_phase3_policy_search` (orchestrator.py lines 182-194). -/
def phase3_policy_search (env : OrchestratorEnv) (drug : String) :
    PolicySearchPhase :=
  match env.vector_search drug with
  | Except.ok results =>
      { drug := some drug, policies_found := some results.length,
        results := some results, status := some ("success") }
  | Except.error e =>
      { policies_found := some 0, status := some ("error"), error := some e }

/-- `_phase4_eligibility_check` (orchestrator.py lines 196-227). -/
def phase4_eligibility_check (env : OrchestratorEnv) (patient : Patient)
    (drug policy_criteria : String) : EligibilityPhase :=
  match env.run_eligibility patient drug policy_criteria with
  | Except.ok r =>
      { meets_criteria := some r.meets_criteria,
        confidence_score := some r.confidence_score,
        clinical_justification := some r.clinical_justification,
        recommendation := some r.recommendation, status := some ("success") }
  | Except.error e =>
      { meets_criteria := some false, status := some ("error"), error := some e }

/-- `_phase5_pa_generation` (orchestrator.py lines 229-257). -/
def phase5_pa_generation (env : OrchestratorEnv) (patient_id drug : String)
    (eligibility_result : EligibilityPhase) (provider_name npi : String) :
    PAFormPhase :=
  match env.generate_form patient_id drug eligibility_result provider_name npi with
  | Except.ok form_data =>
      { form_id := some form_data.form_id,
        status := some ("ready_for_submission"),
        has_clinical_narrative := some (form_data.clinical_narrative.getD ("") != ""),
        narrative_preview :=
          some (if form_data.clinical_narrative.getD ("") != "" then
                  (form_data.clinical_narrative.getD ("")).take 100 ++ "..."
                else ""),
        full_form := some form_data, api_status := some ("success") }
  | Except.error e => { status := some ("error"), error := some e }

/-- `_extract_policy_criteria` (orchestrator.py lines 259-272): fallback
when the search phase is not successful or its `results` value is missing /
empty; otherwise the `criteria` metadata entries of the first 3 hits are
collected by the loop and joined with "; ", falling back again when none of
those hits carries one. -/
def extract_policy_criteria (policy_result : PolicySearchPhase) : String :=
  if policy_result.status ≠ some ("success") ∨ policy_result.results.getD [] = [] then
    "Standard medical necessity criteria"
  else
    let criteria_list :=
      ((policy_result.results.getD []).take 3).foldl
        (fun acc r =>
          match r.metadata.find? (fun kv => kv.fst == "criteria") with
          | some kv => acc ++ [kv.snd]
          | none => acc) []
    if criteria_list = [] then "Standard medical necessity criteria"
    else String.intercalate ("; ") criteria_list

/-- The `criteria` metadata entries of a hit list, in order (the loop of
`_extract_policy_criteria` as a `filterMap`). -/
def criteriaOf (hits : List SearchMatch) : List String :=
  hits.filterMap (fun r =>
    (r.metadata.find? (fun kv => kv.fst == "criteria")).map (fun kv => kv.snd))

/-- `_determine_recommendation` (orchestrator.py lines 274-289): the
deterministic, order-sensitive 4-way rule. -/
def determine_recommendation (coverage_result : CoveragePhase)
    (eligibility_result : EligibilityPhase) : String :=
  if coverage_result.status ≠ some ("success") ∨
      coverage_result.covered.getD false = false then
    "DENY"
  else if eligibility_result.status ≠ some ("success") then
    "REVIEW"
  else if eligibility_result.meets_criteria.getD false then
    "APPROVE"
  else
    "DENY"

/-- `_build_summary` (orchestrator.py lines 291-313); `{confidence*100:.0f}`
is float formatting with banker rounding to an integer. -/
def build_summary (coverage_result : CoveragePhase)
    (eligibility_result : EligibilityPhase) (recommendation : String) : String :=
  let lines := ["Recommendation: " ++ recommendation]
  let lines :=
    if coverage_result.status = some ("success") then
      lines ++ ["Coverage: " ++
        (if coverage_result.covered.getD false then "Covered" else "Not Covered") ++
        " (" ++
        (if coverage_result.pa_required.getD false then "PA Required"
         else "No PA Required") ++ ")"]
    else lines
  let lines :=
    if eligibility_result.status = some ("success") then
      lines ++
        ["Eligibility: " ++
           (if eligibility_result.meets_criteria.getD false then "Meets"
            else "Does Not Meet") ++
           " criteria (Confidence: " ++
           toString (roundHalfEven ((eligibility_result.confidence_score.getD 0) * 100)) ++
           "%)",
         "Clinical Justification: " ++
           (eligibility_result.clinical_justification.getD ("N/A")).take 150 ++ "..."]
    else lines
  String.intercalate ("\n") lines

/-- `_error_response` (orchestrator.py lines 315-328). -/
def error_response (workflow_id now error_msg : String) : WorkflowResult :=
  { workflow_id := workflow_id, status := "error", error := some error_msg,
    timestamp := some now, phases := {} }

/-- `process_prescription` (orchestrator.py lines 29-158).  The patient
lookup and coverage check are pure lookups here, so the patient-fetch
`except` branch is dead; the fallible capabilities are caught inside their
phase wrappers exactly as in the code. -/
def process_prescription (env : OrchestratorEnv) (db : Db)
    (patient_id drug provider_name npi : String) : WorkflowResult :=
  let workflow_id := "WF_" ++ env.now ++ "_" ++ patient_id ++ "_" ++ drug.toUpper
  match db.findPatient patient_id with
  | none => error_response workflow_id env.now ("Patient " ++ patient_id ++ " not found")
  | some patient =>
      let coverage_result := phase2_coverage_check db patient drug
      if coverage_result.covered.getD false = false then
        { workflow_id := workflow_id, status := "completed",
          result := some ("not_covered"),
          phases := { phase2_coverage := some coverage_result,
                      phase3_policy_search := none, phase4_eligibility := none,
                      phase5_pa_form := none },
          recommendation := some ("DENY"),
          reason := some (drug ++ " is not covered under " ++ patient.insurance_plan) }
      else
        let policy_result := phase3_policy_search env drug
        let policy_criteria := extract_policy_criteria policy_result
        let eligibility_result := phase4_eligibility_check env patient drug policy_criteria
        let pa_form_result :=
          phase5_pa_generation env patient_id drug eligibility_result provider_name npi
        let recommendation := determine_recommendation coverage_result eligibility_result
        { workflow_id := workflow_id, status := "completed",
          result := some ("success"),
          timestamp := some env.now,
          patient := some { id := patient_id, name := patient.name,
                            age := patient.age,
                            insurance_plan := patient.insurance_plan },
          phases := { phase2_coverage := some coverage_result,
                      phase3_policy_search := some policy_result,
                      phase4_eligibility := some eligibility_result,
                      phase5_pa_form := some pa_form_result },
          recommendation := some recommendation,
          summary := some (build_summary coverage_result eligibility_result recommendation) }

/-- A concrete environment whose external capabilities are all down — used
by witnesses that only exercise the short-circuit path. -/
def envDown : OrchestratorEnv :=
  { now := "20250101120000",
    vector_search := fun _ => Except.error ("vector index unavailable"),
    run_eligibility := fun _ _ _ => Except.error ("LLM unavailable"),
    generate_form := fun _ _ _ _ _ => Except.error ("LLM unavailable") }

/-- Concrete phase dicts for the C1 witness: a successful covered coverage
phase and an errored eligibility phase. -/
def covPhaseOk : CoveragePhase :=
  { covered := some true, pa_required := some true,
    criteria := some (some ("BMI > 30 AND HbA1c > 7.5")),
    status := some ("success") }

/-- An errored eligibility phase dict, as `_phase4_eligibility_check`
builds it when the LLM call raises. -/
def eligPhaseErr : EligibilityPhase :=
  { meets_criteria := some false, status := some ("error"),
    error := some ("LLM unavailable") }

/-- Two concrete index hits (ascending distance) for the C9 witness. -/
def queryReplyScenario : List QueryCandidate :=
  [{ id := "AetnaGold_Ozempic", text := "Ozempic PA policy text",
     metadata := [("plan", "Aetna Gold"), ("drug", "Ozempic"),
                  ("criteria", "BMI > 30 AND HbA1c > 7.5")],
     distance := 1/10 },
   { id := "BlueCrossSilver_Trulicity", text := "Trulicity PA policy text",
     metadata := [("plan", "BlueCross Silver"), ("drug", "Trulicity")],
     distance := 3/10 }]


/-! # Theorems -/

/-- Claim C3: `check_coverage` is total (it is a Lean function, so it never
raises) and every not-found / not-covered case is a typed negative result:
a missing patient yields `covered = false` with a "Patient not found" reason,
a drug absent from the plan's formulary yields `covered = false` with a
"not in formulary" reason, a stored record with `covered = false` yields
`covered = false` with a "not covered" reason, and every negative result
carries a non-empty reason string. -/
theorem C3_check_coverage_negative_total (db : Db) (pid drug : String) :
    (db.findPatient pid = none →
      (check_coverage pid drug db).covered = false ∧
      (check_coverage pid drug db).pa_required = false ∧
      (check_coverage pid drug db).reason = some ("Patient not found: " ++ pid)) ∧
    (∀ pat, db.findPatient pid = some pat →
      db.findPlanRecord pat.insurance_plan drug = none →
      (check_coverage pid drug db).covered = false ∧
      (check_coverage pid drug db).reason =
        some ("Drug not in formulary for " ++ pat.insurance_plan)) ∧
    (∀ pat r, db.findPatient pid = some pat →
      db.findPlanRecord pat.insurance_plan drug = some r → r.covered = false →
      (check_coverage pid drug db).covered = false ∧
      (check_coverage pid drug db).reason =
        some ("Drug not covered under " ++ pat.insurance_plan)) ∧
    ((check_coverage pid drug db).covered = false →
      ∃ s, (check_coverage pid drug db).reason = some s ∧ 0 < s.length) := by
  refine ⟨fun h => by simp [check_coverage, h],
          fun pat hp hr => by simp [check_coverage, hp, hr],
          fun pat r hp hr hc => by simp [check_coverage, hp, hr, hc],
          fun _ => ?_⟩
  cases hfp : db.findPatient pid with
  | none =>
      refine ⟨"Patient not found: " ++ pid, by simp [check_coverage, hfp], ?_⟩
      have h0 : 0 < ("Patient not found: ").length := by decide
      simp only [String.length_append]
      omega
  | some pat =>
      cases hpr : db.findPlanRecord pat.insurance_plan drug with
      | none =>
          refine ⟨"Drug not in formulary for " ++ pat.insurance_plan,
            by simp [check_coverage, hfp, hpr], ?_⟩
          have h0 : 0 < ("Drug not in formulary for ").length := by decide
          simp only [String.length_append]
          omega
      | some r =>
          cases hc : r.covered with
          | false =>
              refine ⟨"Drug not covered under " ++ pat.insurance_plan,
                by simp [check_coverage, hfp, hpr, hc], ?_⟩
              have h0 : 0 < ("Drug not covered under ").length := by decide
              simp only [String.length_append]
              omega
          | true =>
              cases hpa : r.pa_required with
              | false =>
                  refine ⟨"Covered, no PA required",
                    by simp [check_coverage, hfp, hpr, hc, hpa], by decide⟩
              | true =>
                  refine ⟨"Coverage found",
                    by simp [check_coverage, hfp, hpr, hc, hpa], by decide⟩

/-- Claim C4: for a stored record with `covered = true` matching the
patient's plan and the requested drug, `check_coverage` round-trips the
stored `tier`, `criteria`, `estimated_copay` and `quantity_limit` fields
exactly into the result. -/
theorem C4_coverage_covered_roundtrip (db : Db) (pid drug : String) (pat : Patient)
    (r : InsurancePlan) (hp : db.findPatient pid = some pat)
    (hr : db.findPlanRecord pat.insurance_plan drug = some r)
    (hc : r.covered = true) :
    (check_coverage pid drug db).covered = true ∧
    (check_coverage pid drug db).tier = r.tier ∧
    (check_coverage pid drug db).criteria = r.criteria ∧
    (check_coverage pid drug db).estimated_copay = r.estimated_copay ∧
    (check_coverage pid drug db).quantity_limit = r.quantity_limit := by
  simp [check_coverage, hp, hr, hc]

/-- Claim C4 witness: the P001 / Aetna Gold / Ozempic record round-trips. -/
theorem C4_coverage_covered_roundtrip_witness :
    (check_coverage ("P001") ("Ozempic") dbScenario).covered = true ∧
    (check_coverage ("P001") ("Ozempic") dbScenario).tier = recordAetnaOzempic.tier ∧
    (check_coverage ("P001") ("Ozempic") dbScenario).criteria = recordAetnaOzempic.criteria ∧
    (check_coverage ("P001") ("Ozempic") dbScenario).estimated_copay =
      recordAetnaOzempic.estimated_copay ∧
    (check_coverage ("P001") ("Ozempic") dbScenario).quantity_limit =
      recordAetnaOzempic.quantity_limit :=
  C4_coverage_covered_roundtrip dbScenario ("P001") ("Ozempic") patientP001
    recordAetnaOzempic rfl rfl rfl

/-- Claim C5: for a stored record with `covered = true` and
`pa_required = true`, `check_coverage` returns the stored field values and a
non-empty reason; the reason is the PA-required branch's dedicated string
"Coverage found" (the code's phrase reflecting the PA requirement — it is
emitted exactly when `pa_required` holds, the no-PA branch emitting
"Covered, no PA required" instead). -/
theorem C5_pa_required_scenario (db : Db) (pid drug : String) (pat : Patient)
    (r : InsurancePlan) (hp : db.findPatient pid = some pat)
    (hr : db.findPlanRecord pat.insurance_plan drug = some r)
    (hc : r.covered = true) (hpa : r.pa_required = true) :
    (check_coverage pid drug db).covered = true ∧
    (check_coverage pid drug db).pa_required = true ∧
    (check_coverage pid drug db).criteria = r.criteria ∧
    (check_coverage pid drug db).tier = r.tier ∧
    (check_coverage pid drug db).estimated_copay = r.estimated_copay ∧
    (check_coverage pid drug db).reason = some ("Coverage found") ∧
    (∃ s, (check_coverage pid drug db).reason = some s ∧ 0 < s.length) := by
  refine ⟨?_, ?_, ?_, ?_, ?_, ?_, "Coverage found", ?_, by decide⟩ <;>
    simp [check_coverage, hp, hr, hc, hpa]

/-- Claim C5 witness: patient P001 on "Aetna Gold" requesting "Ozempic",
with the stored record `covered = true, pa_required = true,
criteria = "BMI > 30 AND HbA1c > 7.5", tier = 3, estimated_copay = 25.0`. -/
theorem C5_pa_required_scenario_witness :
    (check_coverage ("P001") ("Ozempic") dbScenario).covered = true ∧
    (check_coverage ("P001") ("Ozempic") dbScenario).pa_required = true ∧
    (check_coverage ("P001") ("Ozempic") dbScenario).criteria =
      some ("BMI > 30 AND HbA1c > 7.5") ∧
    (check_coverage ("P001") ("Ozempic") dbScenario).tier = some 3 ∧
    (check_coverage ("P001") ("Ozempic") dbScenario).estimated_copay = some 25 ∧
    (check_coverage ("P001") ("Ozempic") dbScenario).reason = some ("Coverage found") ∧
    (∃ s, (check_coverage ("P001") ("Ozempic") dbScenario).reason = some s ∧ 0 < s.length) :=
  C5_pa_required_scenario dbScenario ("P001") ("Ozempic") patientP001
    recordAetnaOzempic rfl rfl rfl rfl

/-- Claim C10: for an existing patient, the patient-keyed coverage lookup
equals the plan-keyed one applied to the patient's `insurance_plan` —
`check_coverage` and `check_coverage_by_plan` agree field for field. -/
theorem C10_patient_plan_lookup_equiv (db : Db) (pid drug : String) (pat : Patient)
    (hp : db.findPatient pid = some pat) :
    check_coverage pid drug db = check_coverage_by_plan pat.insurance_plan drug db := by
  unfold check_coverage check_coverage_by_plan
  rw [hp]

/-- Claim C10 witness: patient P002's lookup coincides with the
"BlueCross Silver" plan-keyed lookup. -/
theorem C10_patient_plan_lookup_equiv_witness :
    check_coverage ("P002") ("Trulicity") dbScenario =
      check_coverage_by_plan ("BlueCross Silver") ("Trulicity") dbScenario :=
  C10_patient_plan_lookup_equiv dbScenario ("P002") ("Trulicity") patientP002 rfl

/-- Claim C7: the verdict built from a successfully parsed reply uses
explicit defaults for absent fields — `meets_criteria` defaults to false,
`confidence_score` to 0.0, `recommendation` to "NEEDS_REVIEW" (and
`clinical_justification` to "") — and present fields pass through; the
resulting `EligibilityVerdict` structure always has every field populated. -/
theorem C7_eligibility_defaults (parsed : List (String × Jv)) :
    (parsed.find? (fun kv => kv.fst == "meets_criteria") = none →
      (check_clinical_eligibility_from_parsed parsed).meets_criteria = Jv.bool false) ∧
    (parsed.find? (fun kv => kv.fst == "confidence_score") = none →
      (check_clinical_eligibility_from_parsed parsed).confidence_score = Jv.num 0) ∧
    (parsed.find? (fun kv => kv.fst == "recommendation") = none →
      (check_clinical_eligibility_from_parsed parsed).recommendation =
        Jv.str ("NEEDS_REVIEW")) ∧
    (parsed.find? (fun kv => kv.fst == "clinical_justification") = none →
      (check_clinical_eligibility_from_parsed parsed).clinical_justification =
        Jv.str ("")) ∧
    (∀ kv, parsed.find? (fun kv => kv.fst == "meets_criteria") = some kv →
      (check_clinical_eligibility_from_parsed parsed).meets_criteria = kv.snd) ∧
    (check_clinical_eligibility_from_parsed parsed).reasoning_details = parsed := by
  refine ⟨fun h => ?_, fun h => ?_, fun h => ?_, fun h => ?_, fun kv h => ?_, rfl⟩ <;>
    simp [check_clinical_eligibility_from_parsed, pyDictGet, h]

/-- Claim C8 helper: the appending loop of `_extract_policy_criteria` run
from any accumulator is the accumulator followed by the `criteria` metadata
entries of the hits. -/
theorem criteria_foldl_eq (hits : List SearchMatch) (acc : List String) :
    hits.foldl
      (fun acc r =>
        match r.metadata.find? (fun kv => kv.fst == "criteria") with
        | some kv => acc ++ [kv.snd]
        | none => acc) acc = acc ++ criteriaOf hits := by
  induction hits generalizing acc with
  | nil => simp [criteriaOf]
  | cons h t ih =>
      cases hf : h.metadata.find? (fun kv => kv.fst == "criteria") with
      | none => simp [criteriaOf, hf, ih, List.filterMap_cons]
      | some kv => simp [criteriaOf, hf, ih, List.filterMap_cons]

/-- Claim C8: the extracted policy-criteria string is the "; "-joined
concatenation of the `criteria` metadata entries of at most the first 3
retrieved hits, and it is exactly the literal
"Standard medical necessity criteria" whenever the search phase did not
succeed, returned no (or a missing) result list, or none of the considered
hits carries a `criteria` metadata entry. -/
theorem C8_extract_policy_criteria_rule (policy_result : PolicySearchPhase) :
    ((policy_result.status = some ("success") ∧ policy_result.results.getD [] ≠ [] ∧
        criteriaOf ((policy_result.results.getD []).take 3) ≠ []) →
      extract_policy_criteria policy_result =
        String.intercalate ("; ") (criteriaOf ((policy_result.results.getD []).take 3))) ∧
    ((policy_result.status ≠ some ("success") ∨ policy_result.results.getD [] = [] ∨
        criteriaOf ((policy_result.results.getD []).take 3) = []) →
      extract_policy_criteria policy_result = "Standard medical necessity criteria") := by
  constructor
  · rintro ⟨hs, hr, hc⟩
    simp only [extract_policy_criteria, hs, hr, criteria_foldl_eq, List.nil_append]
    simp [hc]
  · rintro (h | h | h)
    · simp [extract_policy_criteria, h]
    · simp [extract_policy_criteria, h]
    · by_cases hs : policy_result.status = some ("success")
      · by_cases hr : policy_result.results.getD [] = []
        · simp [extract_policy_criteria, hr]
        · simp only [extract_policy_criteria, hs, hr, criteria_foldl_eq, List.nil_append]
          simp [h, hr]
      · simp [extract_policy_criteria, hs]

/-- Claim C1: `_determine_recommendation` implements the deterministic,
order-sensitive rule — DENY when the coverage phase did not succeed or is
not covered; otherwise REVIEW when the eligibility phase is not successful;
otherwise APPROVE when `meets_criteria` holds, DENY when it does not — and
an eligibility phase that is not successful can never yield APPROVE,
whatever the other eligibility fields hold. -/
theorem C1_determine_recommendation_rule (coverage_result : CoveragePhase)
    (eligibility_result : EligibilityPhase) :
    ((coverage_result.status ≠ some ("success") ∨
        coverage_result.covered.getD false = false) →
      determine_recommendation coverage_result eligibility_result = "DENY") ∧
    (coverage_result.status = some ("success") →
      coverage_result.covered.getD false = true →
      eligibility_result.status ≠ some ("success") →
      determine_recommendation coverage_result eligibility_result = "REVIEW") ∧
    (coverage_result.status = some ("success") →
      coverage_result.covered.getD false = true →
      eligibility_result.status = some ("success") →
      eligibility_result.meets_criteria.getD false = true →
      determine_recommendation coverage_result eligibility_result = "APPROVE") ∧
    (coverage_result.status = some ("success") →
      coverage_result.covered.getD false = true →
      eligibility_result.status = some ("success") →
      eligibility_result.meets_criteria.getD false = false →
      determine_recommendation coverage_result eligibility_result = "DENY") ∧
    (eligibility_result.status ≠ some ("success") →
      determine_recommendation coverage_result eligibility_result ≠ "APPROVE") := by
  refine ⟨fun h => ?_, fun h1 h2 h3 => ?_, fun h1 h2 h3 h4 => ?_,
          fun h1 h2 h3 h4 => ?_, fun h => ?_⟩ <;>
    simp_all [determine_recommendation] <;> split_ifs <;> simp_all

/-- Claim C1 witness: a successful, covered coverage phase together with an
errored eligibility phase yields REVIEW. -/
theorem C1_determine_recommendation_rule_witness :
    determine_recommendation covPhaseOk eligPhaseErr = "REVIEW" :=
  (C1_determine_recommendation_rule covPhaseOk eligPhaseErr).2.1 rfl rfl (by decide)

/-- Claim C2: for an existing patient whose coverage check is negative,
`process_prescription` short-circuits into a completed workflow whose
result is "not_covered", whose recommendation is DENY, whose phase-2 entry
is populated, and whose phase-3, phase-4 and phase-5 entries are present as
explicit nulls. -/
theorem C2_not_covered_short_circuit (env : OrchestratorEnv) (db : Db)
    (patient_id drug provider_name npi : String) (pat : Patient)
    (hp : db.findPatient patient_id = some pat)
    (hnc : (check_coverage patient_id drug db).covered = false) :
    (process_prescription env db patient_id drug provider_name npi).status =
      "completed" ∧
    (process_prescription env db patient_id drug provider_name npi).result =
      some ("not_covered") ∧
    (process_prescription env db patient_id drug provider_name npi).recommendation =
      some ("DENY") ∧
    (process_prescription env db patient_id drug provider_name npi).phases.phase2_coverage =
      some (phase2_coverage_check db pat drug) ∧
    (process_prescription env db patient_id drug provider_name npi).phases.phase3_policy_search =
      none ∧
    (process_prescription env db patient_id drug provider_name npi).phases.phase4_eligibility =
      none ∧
    (process_prescription env db patient_id drug provider_name npi).phases.phase5_pa_form =
      none := by
  have hid : pat.patient_id = patient_id := by
    have := List.find?_some hp
    simpa using this
  have hcov : (phase2_coverage_check db pat drug).covered.getD false = false := by
    simp [phase2_coverage_check, hid, hnc]
  simp [process_prescription, hp, hcov]

/-- Claim C2 witness: patient P002 requesting the not-covered Trulicity. -/
theorem C2_not_covered_short_circuit_witness :
    (process_prescription envDown dbScenario ("P002") ("Trulicity") ("Dr. Unknown")
        ("0000000000")).status = "completed" ∧
    (process_prescription envDown dbScenario ("P002") ("Trulicity") ("Dr. Unknown")
        ("0000000000")).result = some ("not_covered") ∧
    (process_prescription envDown dbScenario ("P002") ("Trulicity") ("Dr. Unknown")
        ("0000000000")).recommendation = some ("DENY") ∧
    (process_prescription envDown dbScenario ("P002") ("Trulicity") ("Dr. Unknown")
        ("0000000000")).phases.phase2_coverage =
      some (phase2_coverage_check dbScenario patientP002 ("Trulicity")) ∧
    (process_prescription envDown dbScenario ("P002") ("Trulicity") ("Dr. Unknown")
        ("0000000000")).phases.phase3_policy_search = none ∧
    (process_prescription envDown dbScenario ("P002") ("Trulicity") ("Dr. Unknown")
        ("0000000000")).phases.phase4_eligibility = none ∧
    (process_prescription envDown dbScenario ("P002") ("Trulicity") ("Dr. Unknown")
        ("0000000000")).phases.phase5_pa_form = none :=
  C2_not_covered_short_circuit envDown dbScenario ("P002") ("Trulicity")
    ("Dr. Unknown") ("0000000000") patientP002 rfl rfl

/-- The banker rounding never falls below the floor. -/
theorem floor_le_roundHalfEven (q : ℚ) : ⌊q⌋ ≤ roundHalfEven q := by
  unfold roundHalfEven
  split_ifs <;> omega

/-- The banker rounding never exceeds the floor plus one. -/
theorem roundHalfEven_le_floor_add_one (q : ℚ) : roundHalfEven q ≤ ⌊q⌋ + 1 := by
  unfold roundHalfEven
  split_ifs <;> omega

/-- The banker rounding is monotone. -/
theorem roundHalfEven_mono {a b : ℚ} (h : a ≤ b) :
    roundHalfEven a ≤ roundHalfEven b := by
  have hf : ⌊a⌋ ≤ ⌊b⌋ := Int.floor_le_floor h
  rcases eq_or_lt_of_le hf with heq | hlt
  · have hcast : (⌊a⌋ : ℚ) = (⌊b⌋ : ℚ) := by exact_mod_cast heq
    have hfr : Int.fract a ≤ Int.fract b := by
      simp only [Int.fract]
      linarith
    unfold roundHalfEven
    split_ifs <;> first | omega | (exfalso; linarith)
  · calc roundHalfEven a ≤ ⌊a⌋ + 1 := roundHalfEven_le_floor_add_one a
      _ ≤ ⌊b⌋ := by omega
      _ ≤ roundHalfEven b := floor_le_roundHalfEven b

/-- `round(_, 4)` is monotone. -/
theorem pyRound4_mono {a b : ℚ} (h : a ≤ b) : pyRound4 a ≤ pyRound4 b := by
  unfold pyRound4
  have h1 : roundHalfEven (a * 10000) ≤ roundHalfEven (b * 10000) :=
    roundHalfEven_mono (by linarith)
  have h2 : (roundHalfEven (a * 10000) : ℚ) ≤ (roundHalfEven (b * 10000) : ℚ) := by
    exact_mod_cast h1
  gcongr

/-- The search is the post-hoc filter of the index reply followed by the
per-candidate match construction. -/
theorem search_eq_filter_map (queryReply : List QueryCandidate) (θ : ℚ) :
    VectorIndexManager.search queryReply θ =
      (queryReply.filter (fun c => decide (θ ≤ 1 - c.distance))).map
        VectorIndexManager.matchOf := by
  induction queryReply with
  | nil => rfl
  | cons c t ih =>
      by_cases hc : θ ≤ 1 - c.distance <;>
        simp [VectorIndexManager.search, List.filterMap_cons, hc, ih,
          VectorIndexManager.search] <;>
        simpa [VectorIndexManager.search] using ih

/-- Claim C9: the similarity threshold is applied after the index is
queried — the result is the filter of the (at most `top_k`-long) index
reply, each kept candidate carrying `1 - distance` rounded to 4 digits;
with threshold 1.0 on a corpus with no identical document (all cosine
distances positive) the result is empty; and for any threshold (0.0 in
particular) the result has at most `top_k` entries, ordered by descending
similarity whenever the index reply is ordered by ascending distance. -/
theorem C9_search_threshold_posthoc (queryReply : List QueryCandidate) (top_k : ℕ)
    (hlen : queryReply.length ≤ top_k)
    (hsorted : queryReply.Pairwise (fun a b => a.distance ≤ b.distance)) :
    (∀ θ, VectorIndexManager.search queryReply θ =
        (queryReply.filter (fun c => decide (θ ≤ 1 - c.distance))).map
          VectorIndexManager.matchOf) ∧
    ((∀ c ∈ queryReply, 0 < c.distance) →
      VectorIndexManager.search queryReply 1 = []) ∧
    (∀ θ, (VectorIndexManager.search queryReply θ).length ≤ top_k) ∧
    (∀ θ, (VectorIndexManager.search queryReply θ).Pairwise
        (fun a b => b.similarity ≤ a.similarity)) := by
  refine ⟨search_eq_filter_map queryReply, fun hpos => ?_, fun θ => ?_, fun θ => ?_⟩
  · rw [search_eq_filter_map]
    have : queryReply.filter (fun c => decide ((1 : ℚ) ≤ 1 - c.distance)) = [] := by
      rw [List.filter_eq_nil]
      intro c hc
      have := hpos c hc
      simp only [decide_eq_true_eq]
      intro hle
      linarith
    rw [this]
    rfl
  · rw [search_eq_filter_map]
    calc ((queryReply.filter _).map VectorIndexManager.matchOf).length
        = (queryReply.filter _).length := List.length_map _ _
      _ ≤ queryReply.length := List.length_filter_le _ _
      _ ≤ top_k := hlen
  · rw [search_eq_filter_map]
    rw [List.pairwise_map]
    have hsub : (queryReply.filter (fun c => decide (θ ≤ 1 - c.distance))).Pairwise
        (fun a b => a.distance ≤ b.distance) :=
      hsorted.sublist (List.filter_sublist _)
    refine hsub.imp ?_
    intro a b hab
    show (VectorIndexManager.matchOf b).similarity ≤
      (VectorIndexManager.matchOf a).similarity
    simp only [VectorIndexManager.matchOf]
    exact pyRound4_mono (by linarith)

/-- Claim C9 witness: the two-hit reply with `top_k = 3`. -/
theorem C9_search_threshold_posthoc_witness :
    (∀ θ, VectorIndexManager.search queryReplyScenario θ =
        (queryReplyScenario.filter (fun c => decide (θ ≤ 1 - c.distance))).map
          VectorIndexManager.matchOf) ∧
    ((∀ c ∈ queryReplyScenario, 0 < c.distance) →
      VectorIndexManager.search queryReplyScenario 1 = []) ∧
    (∀ θ, (VectorIndexManager.search queryReplyScenario θ).length ≤ 3) ∧
    (∀ θ, (VectorIndexManager.search queryReplyScenario θ).Pairwise
        (fun a b => b.similarity ≤ a.similarity)) :=
  C9_search_threshold_posthoc queryReplyScenario 3 (by decide)
    (by simp [queryReplyScenario]; norm_num)

/-! ### Claim C6: Python `str.split` / fenced-block unwrap lemmas -/
theorem pySplit_nil {sep : List Char} (h : sep ≠ []) : pySplit sep [] = [[]] := by
  rw [pySplit]
  simp [h]

theorem pySplit_cons_pos {sep : List Char} (h : sep ≠ []) {c : Char} {rest : List Char}
    (hpre : sep <+: (c :: rest)) :
    pySplit sep (c :: rest) = [] :: pySplit sep ((c :: rest).drop sep.length) := by
  rw [pySplit]
  simp [h, hpre]

theorem pySplit_cons_neg {sep : List Char} (h : sep ≠ []) {c : Char} {rest : List Char}
    (hpre : ¬ sep <+: (c :: rest)) :
    pySplit sep (c :: rest) =
      match pySplit sep rest with
      | [] => [[c]]
      | hd :: t => (c :: hd) :: t := by
  rw [pySplit]
  simp [h, hpre]

theorem pySplit_append_left {sep : List Char} (h : sep ≠ []) (t : List Char) :
    pySplit sep (sep ++ t) = [] :: pySplit sep t := by
  match hs : sep with
  | a :: as =>
    have hpre : (a :: as) <+: ((a :: as) ++ t) := List.prefix_append _ _
    rw [show (a :: as) ++ t = a :: (as ++ t) from rfl] at hpre ⊢
    rw [pySplit_cons_pos h (by simpa using hpre)]
    congr 1
    rw [show a :: (as ++ t) = (a :: as) ++ t from rfl]
    rw [List.drop_left]

theorem pySplit_no_occurrence {sep : List Char} (h : sep ≠ []) {s : List Char}
    (hin : ¬ sep <:+: s) : pySplit sep s = [s] := by
  induction s with
  | nil => exact pySplit_nil h
  | cons c rest ih =>
      have hpre : ¬ sep <+: (c :: rest) := fun hp => hin hp.isInfix
      have hin' : ¬ sep <:+: rest := fun hi => hin (List.infix_cons_iff.mpr (Or.inr hi))
      rw [pySplit_cons_neg h hpre, ih hin']

theorem fence_ne_nil : fence ≠ [] := by simp [fence]

theorem fenceJson_ne_nil : fenceJson ≠ [] := by simp [fenceJson, fence]

theorem fence_occ_unique (u : List Char) (hu : ¬ fence <:+: u)
    (hl : u.getLast? ≠ some backquote) :
    ∀ a b : List Char, a ++ fence ++ b = u ++ fence → a = u ∧ b = [] := by
  induction u with
  | nil =>
      intro a b heq
      have hL := congrArg List.length heq
      simp only [List.length_append, List.nil_append] at hL
      have ha : a = [] := List.eq_nil_of_length_eq_zero (by omega)
      have hb : b = [] := List.eq_nil_of_length_eq_zero (by omega)
      exact ⟨ha, hb⟩
  | cons c v ih =>
      intro a b heq
      cases a with
      | nil =>
          exfalso
          simp only [List.nil_append, fence, List.cons_append] at heq
          cases v with
          | nil =>
              simp only [List.nil_append] at heq
              simp [fence] at heq
              obtain ⟨hc, -⟩ := heq
              subst hc
              exact hl rfl
          | cons d w =>
              cases w with
              | nil =>
                  simp [fence] at heq
                  obtain ⟨-, hd, -⟩ := heq
                  subst hd
                  exact hl rfl
              | cons e w' =>
                  simp only [List.cons_append, List.cons.injEq] at heq
                  obtain ⟨hc, hd, he, -⟩ := heq
                  subst hc
                  subst hd
                  subst he
                  exact hu (List.IsPrefix.isInfix ⟨w', rfl⟩)
      | cons a0 a' =>
          rw [List.cons_append, List.cons_append, List.cons_append] at heq
          injection heq with h0 h1
          have hu' : ¬ fence <:+: v := fun hi => hu (List.infix_cons_iff.mpr (Or.inr hi))
          have hl' : v.getLast? ≠ some backquote := by
            cases v with
            | nil => simp
            | cons x xs =>
                intro hx
                apply hl
                rw [List.getLast?_cons_cons]
                exact hx
          obtain ⟨ha', hb⟩ := ih hu' hl' a' b h1
          exact ⟨by rw [h0, ha'], hb⟩

theorem pySplit_fence_append (u : List Char) (hu : ¬ fence <:+: u)
    (hl : u.getLast? ≠ some backquote) :
    pySplit fence (u ++ fence) = [u, []] := by
  induction u with
  | nil =>
      have h1 := pySplit_append_left fence_ne_nil ([] : List Char)
      rw [List.append_nil] at h1
      rw [List.nil_append, h1, pySplit_nil fence_ne_nil]
  | cons c v ih =>
      have hnpre : ¬ fence <+: (c :: (v ++ fence)) := by
        rintro ⟨t, ht⟩
        have heq : [] ++ fence ++ t = (c :: v) ++ fence := by simpa using ht
        obtain ⟨h1, -⟩ := fence_occ_unique (c :: v) hu hl [] t heq
        exact (List.cons_ne_nil c v) h1.symm
      have hu' : ¬ fence <:+: v := fun hi => hu (List.infix_cons_iff.mpr (Or.inr hi))
      have hl' : v.getLast? ≠ some backquote := by
        cases v with
        | nil => simp
        | cons x xs =>
            intro hx
            apply hl
            rw [List.getLast?_cons_cons]
            exact hx
      rw [List.cons_append, pySplit_cons_neg fence_ne_nil hnpre, ih hu' hl']

theorem fenceJson_no_occurrence (u : List Char) (hu : ¬ fence <:+: u)
    (hl : u.getLast? ≠ some backquote) :
    ¬ fenceJson <:+: (u ++ fence) := by
  rintro ⟨a, b, hab⟩
  have heq : a ++ fence ++ (['j', 's', 'o', 'n'] ++ b) = u ++ fence := by
    rw [← hab]
    simp [fenceJson]
  obtain ⟨-, h2⟩ := fence_occ_unique u hu hl a _ heq
  simp at h2

theorem newline_block_no_fence (s : List Char) (h : ¬ fence <:+: s) :
    ¬ fence <:+: ('\n' :: (s ++ ['\n'])) := by
  intro hin
  rcases List.infix_cons_iff.mp hin with hpre | hin2
  · obtain ⟨t, ht⟩ := hpre
    rw [show fence = backquote :: backquote :: backquote :: [] from rfl] at ht
    injection ht with h0 htail
    exact absurd h0 (by decide)
  · rcases hin2 with ⟨a, b, hab⟩
    rcases List.eq_nil_or_concat b with hb | ⟨b', x, hbx⟩
    · subst hb
      rw [List.append_nil] at hab
      have hgl := congrArg List.getLast? hab
      rw [List.getLast?_append_of_ne_nil a fence_ne_nil, List.getLast?_concat] at hgl
      have : backquote = '\n' := by
        have : fence.getLast? = some backquote := rfl
        rw [this] at hgl
        exact Option.some.inj hgl
      exact absurd this (by decide)
    · subst hbx
      rw [List.concat_eq_append] at hab
      rw [show a ++ fence ++ (b' ++ [x]) = (a ++ fence ++ b') ++ [x] by simp] at hab
      obtain ⟨h1, -⟩ := List.append_inj' hab rfl
      exact h ⟨a, b', h1⟩

theorem newline_block_getLast (s : List Char) :
    ('\n' :: (s ++ ['\n'])).getLast? = some '\n' := by
  rw [show ('\n' :: (s ++ ['\n'])) = (('\n' :: s) ++ ['\n']) by simp,
    List.getLast?_concat]

theorem newline_block_getLast_ne (s : List Char) :
    ('\n' :: (s ++ ['\n'])).getLast? ≠ some backquote := by
  rw [newline_block_getLast]
  intro hx
  exact absurd (Option.some.inj hx) (by decide)

theorem pyStrip_cons_nl (s : List Char) : pyStrip ('\n' :: s) = pyStrip s := by
  have hws : Char.isWhitespace '\n' = true := by decide
  simp [pyStrip, List.dropWhile_cons, hws]

theorem pyStrip_append_nl (s : List Char) : pyStrip (s ++ ['\n']) = pyStrip s := by
  have hws : Char.isWhitespace '\n' = true := by decide
  by_cases hd : (s.dropWhile Char.isWhitespace).isEmpty
  · have h3 : s.dropWhile Char.isWhitespace = [] := List.isEmpty_iff.mp hd
    have h1 : (s ++ ['\n']).dropWhile Char.isWhitespace = [] := by
      rw [List.dropWhile_append, if_pos hd]
      simp [List.dropWhile_cons, hws]
    simp [pyStrip, h1, h3]
  · have h1 : (s ++ ['\n']).dropWhile Char.isWhitespace =
        s.dropWhile Char.isWhitespace ++ ['\n'] := by
      rw [List.dropWhile_append, if_neg hd]
    simp only [pyStrip, h1, List.reverse_append, List.reverse_cons, List.reverse_nil,
      List.nil_append, List.singleton_append, List.dropWhile_cons, hws]
    simp

theorem pyUnwrap_wrapped (s : List Char) (h : ¬ fence <:+: s) :
    pyUnwrapFence (wrapFencedJson s) = '\n' :: (s ++ ['\n']) := by
  have hu : ¬ fence <:+: ('\n' :: (s ++ ['\n'])) := newline_block_no_fence s h
  have hl : ('\n' :: (s ++ ['\n'])).getLast? ≠ some backquote := newline_block_getLast_ne s
  have hw : wrapFencedJson s = fenceJson ++ (('\n' :: (s ++ ['\n'])) ++ fence) := by
    simp [wrapFencedJson]
  have hg1 : fenceJson <:+: wrapFencedJson s := by
    rw [hw]
    exact ⟨[], ('\n' :: (s ++ ['\n'])) ++ fence, by simp⟩
  have h1 : pySplit fenceJson (wrapFencedJson s) =
      [[], ('\n' :: (s ++ ['\n'])) ++ fence] := by
    rw [hw, pySplit_append_left fenceJson_ne_nil,
      pySplit_no_occurrence fenceJson_ne_nil (fenceJson_no_occurrence _ hu hl)]
  rw [pyUnwrapFence, if_pos hg1, h1]
  show (pySplit fence (('\n' :: (s ++ ['\n'])) ++ fence)).getD 0 [] = _
  rw [pySplit_fence_append _ hu hl]
  rfl

theorem pyUnwrap_plain (s : List Char) (h : ¬ fence <:+: s) :
    pyUnwrapFence s = s := by
  have h2 : ¬ fenceJson <:+: s := fun hin =>
    h (((List.prefix_append fence ['j', 's', 'o', 'n']).isInfix).trans hin)
  rw [pyUnwrapFence, if_neg h2, if_neg h]

/-- Claim C6: for a string with no triple-backtick sequence, wrapping it in
a fenced code block labelled "json" parses identically to the unwrapped
string — the unwrap recovers the block body exactly, the stripped text fed
to `json.loads` is the same, so a valid reply yields the same parsed value
either way — and whenever the text is not valid JSON after the one unwrap,
`parse_json_response` raises the typed error carrying the offending
(unwrapped) text. -/
theorem C6_parse_json_fenced_roundtrip (f : List Char → Option Jv) (s : List Char)
    (h : ¬ fence <:+: s) :
    pyUnwrapFence (wrapFencedJson s) = '\n' :: (s ++ ['\n']) ∧
    pyUnwrapFence s = s ∧
    pyStrip ('\n' :: (s ++ ['\n'])) = pyStrip s ∧
    (∀ j, f (pyStrip s) = some j →
      parse_json_response f (wrapFencedJson s) = Except.ok j ∧
      parse_json_response f s = Except.ok j) ∧
    (f (pyStrip s) = none →
      parse_json_response f (wrapFencedJson s) =
        Except.error (errInvalidJson ++ ('\n' :: (s ++ ['\n']))) ∧
      parse_json_response f s = Except.error (errInvalidJson ++ s)) := by
  have hw := pyUnwrap_wrapped s h
  have hp := pyUnwrap_plain s h
  have hstrip : pyStrip ('\n' :: (s ++ ['\n'])) = pyStrip s := by
    rw [pyStrip_cons_nl, pyStrip_append_nl]
  refine ⟨hw, hp, hstrip, fun j hj => ⟨?_, ?_⟩, fun hn => ⟨?_, ?_⟩⟩
  · simp [parse_json_response, hw, hstrip, hj]
  · simp [parse_json_response, hp, hj]
  · simp [parse_json_response, hw, hstrip, hn]
  · simp [parse_json_response, hp, hn]

/-- Claim C6 witness: the empty JSON object text, with a strict-JSON stub
accepting exactly it. -/
theorem C6_parse_json_fenced_roundtrip_witness :
    pyUnwrapFence (wrapFencedJson (("\x7b\x7d").data)) =
      '\n' :: ((("\x7b\x7d").data) ++ ['\n']) ∧
    pyUnwrapFence (("\x7b\x7d").data) = ("\x7b\x7d").data ∧
    pyStrip ('\n' :: ((("\x7b\x7d").data) ++ ['\n'])) = pyStrip (("\x7b\x7d").data) ∧
    (∀ j, jsonLoadsEmptyObj (pyStrip (("\x7b\x7d").data)) = some j →
      parse_json_response jsonLoadsEmptyObj (wrapFencedJson (("\x7b\x7d").data)) =
        Except.ok j ∧
      parse_json_response jsonLoadsEmptyObj (("\x7b\x7d").data) = Except.ok j) ∧
    (jsonLoadsEmptyObj (pyStrip (("\x7b\x7d").data)) = none →
      parse_json_response jsonLoadsEmptyObj (wrapFencedJson (("\x7b\x7d").data)) =
        Except.error (errInvalidJson ++ ('\n' :: ((("\x7b\x7d").data) ++ ['\n']))) ∧
      parse_json_response jsonLoadsEmptyObj (("\x7b\x7d").data) =
        Except.error (errInvalidJson ++ (("\x7b\x7d").data))) :=
  C6_parse_json_fenced_roundtrip jsonLoadsEmptyObj (("\x7b\x7d").data) (by decide)
